import Mathlib

/-!
Verification of the storage-engine core of benji (`src/benji/storage/base.py`)
against its natural-language specification.

Shallow embedding conventions:
* Python `bytes` is `Data := List Nat`; Python `str` used as keys/names is
  `Str := List Char`.
* The JSON (de)serialization of the sidecar metadata record is folded into the
  typed record `Metadata`: the backend object store is modelled as two partial
  maps, one for payload objects (bytes) and one for `.meta` sidecar objects
  (decoded records).  The `key + ".meta"` suffixing is injective, so the
  metadata map is indexed by the payload key.
* Timing effects (`time.sleep`, token-bucket delays) do not influence any
  returned value; the byte count handed to the read token bucket is modelled
  by its own function `read_throttling_consume_bytes`.
* `hashlib.md5` and the code in `benji.storage.dicthmac` / `benji.utils`
  (`DictHMAC`, `derive_key`) are not part of `src/`; they are modelled from the
  spec where marked.
-/

/-- Python `bytes` values. -/
abbrev Data := List Nat

/-- Python `str` values used as object keys, names and checksums. -/
abbrev Str := List Char

/-- Truthiness of an optional bytes value (`None` and `b""` are falsy). -/
def dataTruthy : Option Data → Bool
  | some d => !d.isEmpty
  | none => false

/-- Truthiness of an optional string (`None` and `""` are falsy). -/
def strTruthy : Option Str → Bool
  | some s => !s.isEmpty
  | none => false

/-- Functional update of a partial map keyed by strings. -/
def updateF (f : Str → Option α) (k : Str) (v : Option α) : Str → Option α :=
  fun k' => if k' = k then v else f k'

theorem updateF_same (f : Str → Option α) (k : Str) (v : Option α) :
    updateF f k v k = v := by
  simp [updateF]

theorem updateF_other (f : Str → Option α) (k k' : Str) (v : Option α)
    (h : k' ≠ k) : updateF f k v k' = f k' := by
  simp [updateF, h]

/-- `StorageBase._BLOCKS_PREFIX`. -/
def _BLOCKS_PREFIX : Str := "blocks/".toList

/-- `StorageBase._VERSIONS_PREFIX`. -/
def _VERSIONS_PREFIX : Str := "versions/".toList

/-- `StorageBase._META_SUFFIX`. -/
def _META_SUFFIX : Str := ".meta".toList

/-- Errors raised by the key codec (`RuntimeError` in the source). -/
inductive KeyErr where
  /-- `_from_key`: the key does not start with the expected object-store
  namespace string. -/
  | badKeyStart
  /-- `_from_key`: the key is too short. -/
  | badKeyLength
  /-- `_key_to_block_uid`: the object key is not exactly 33 characters. -/
  | badObjectKeyLength
  /-- `ValueError` from `int(_, 16)` on a non-hexadecimal UID half. -/
  | valueError
deriving DecidableEq, Repr

/-- `StorageBase._from_key` (src/benji/storage/base.py:438-444): verify the
namespace string, require `len(key) > len(pfx) + 6` (the source raises when
`len(key) <= pl + 6`), then strip the namespace plus the six fan-out
characters. -/
def _from_key (pfx key : Str) : Except KeyErr Str :=
  if pfx.isPrefixOf key = false then .error .badKeyStart
  else if key.length ≤ pfx.length + 6 then .error .badKeyLength
  else .ok (key.drop (pfx.length + 6))

/-- `StorageBase._to_key` (src/benji/storage/base.py:434-436), with
`hashlib.md5(...).hexdigest()` abstracted as the function `md5hex`. -/
def _to_key (md5hex : Str → Str) (pfx object_key : Str) : Str :=
  let digest := md5hex object_key
  pfx ++ digest.take 2 ++ ['/'] ++ (digest.drop 2).take 2 ++ ['/'] ++ object_key

/-- Value of a single hexadecimal digit, or `none`. -/
def hexDigit? (c : Char) : Option Nat :=
  if '0' ≤ c ∧ c ≤ '9' then some (c.toNat - '0'.toNat)
  else if 'a' ≤ c ∧ c ≤ 'f' then some (c.toNat - 'a'.toNat + 10)
  else if 'A' ≤ c ∧ c ≤ 'F' then some (c.toNat - 'A'.toNat + 10)
  else none

/-- ASCII whitespace stripped by Python `int(str, base)`. -/
def pyWhitespace (c : Char) : Bool :=
  c = ' ' ∨ c = '\t' ∨ c = '\n' ∨ c = '\r' ∨ c = '\x0b' ∨ c = '\x0c'

/-- `str.strip()` as applied by Python `int(str, base)`: remove leading and
trailing whitespace. -/
def pyStrip (s : Str) : Str :=
  ((s.dropWhile pyWhitespace).reverse.dropWhile pyWhitespace).reverse

/-- Hex digits after the first one, allowing a single underscore between two
digits (PEP 515): a leading, trailing or doubled underscore fails. -/
def hexDigitsCore : Nat → Str → Option Nat
  | acc, [] => some acc
  | acc, '_' :: c :: rest =>
    match hexDigit? c with
    | some v => hexDigitsCore (16 * acc + v) rest
    | none => none
  | acc, c :: rest =>
    match hexDigit? c with
    | some v => hexDigitsCore (16 * acc + v) rest
    | none => none

/-- A non-empty underscore-separated hex digit run, starting with a digit. -/
def hexBody? : Str → Option Nat
  | [] => none
  | c :: rest =>
    match hexDigit? c with
    | some v => hexDigitsCore v rest
    | none => none

/-- The part of a base-16 literal after an optional sign: an optional
`0x`/`0X` prefix (an underscore may directly follow the prefix), then
digits. -/
def hexAfterSign? : Str → Option Nat
  | '0' :: c :: rest =>
    if c = 'x' ∨ c = 'X' then
      match rest with
      | '_' :: rest' => hexBody? rest'
      | _ => hexBody? rest
    else hexBody? ('0' :: c :: rest)
  | s => hexBody? s

/-- Python `int(s, 16)`: strip surrounding whitespace, accept an optional
sign, an optional `0x`/`0X` prefix and single underscores between hex digits
(PEP 515); anything else fails with `ValueError`.  (Non-ASCII numerals are
outside the model.) -/
def int16? (s : Str) : Option Int :=
  match pyStrip s with
  | '+' :: rest => (hexAfterSign? rest).map Int.ofNat
  | '-' :: rest => (hexAfterSign? rest).map fun n => -(Int.ofNat n)
  | t => (hexAfterSign? t).map Int.ofNat

/-- `BlockUid` (from `benji.metadata`): a pair of unsigned integers. -/
structure BlockUid where
  left : Nat
  right : Nat
deriving DecidableEq, Repr

/-- `StorageBase._key_to_block_uid` (src/benji/storage/base.py:449-454): strip
`blocks/` plus the fan-out, require the object key to be exactly
`16 + 1 + 16` characters, and apply `int(_, 16)` to `object_key[0:16]` and
`object_key[17:33]`.  The separator character at index 16 is never examined,
and `int(_, 16)` is more liberal than a plain hex parse (see `int16?`).
Modelled from the spec for the absent `BlockUid` class of `benji.metadata`:
a `BlockUid` is a pair of 64-bit *unsigned* integers (spec §3), so a
negative `int(_, 16)` result — reachable only for a stray key carrying a
sign — is treated as failing the structural decode. -/
def _key_to_block_uid (key : Str) : Except KeyErr BlockUid := do
  let object_key ← _from_key _BLOCKS_PREFIX key
  if object_key.length ≠ (16 + 1 + 16) then throw .badObjectKeyLength
  match int16? (object_key.take 16), int16? ((object_key.drop 17).take 16) with
  | some l, some r =>
    if 0 ≤ l ∧ 0 ≤ r then pure ⟨l.toNat, r.toNat⟩ else throw .valueError
  | _, _ => throw .valueError

/-- `StorageBase.list_blocks` (src/benji/storage/base.py:285-296) applied to
the key list returned by `_list_objects('blocks/')`: skip keys ending in
`.meta`, decode the rest, and silently drop keys whose decoding raises. -/
def list_blocks : List Str → List BlockUid
  | [] => []
  | key :: keys =>
    if _META_SUFFIX.isSuffixOf key then list_blocks keys
    else
      match _key_to_block_uid key with
      | .ok uid => uid :: list_blocks keys
      | .error _ => list_blocks keys

/-- A `transforms` entry recorded in the sidecar metadata
(src/benji/storage/base.py:378-382). -/
structure TransformEntry where
  name : Str
  module : Str
  materials : Data
deriving DecidableEq, Repr

/-- A transform capability (`benji.transform.base.TransformBase`):
`encapsulate` returns either new bytes plus materials or `None` (decline),
`decapsulate` inverts it.  Only the interface is consumed by `base.py`. -/
structure Transform where
  name : Str
  module : Str
  encapsulate : Data → Option Data × Data
  decapsulate : Data → Data → Data

/-- `TransformFactory.get_by_name`, modelled over an explicit registry list:
the first registered transform with the given name, if any. -/
def getByName (registry : List Transform) (n : Str) : Option Transform :=
  registry.find? fun t => t.name = n

/-- The sidecar metadata record of src/benji/storage/base.py:102-122 (§3 of
the spec), with the compact-JSON serialization folded into the typed record.
A field of an optional key is `none` exactly when the key is absent from the
JSON object. -/
structure Metadata where
  size : Nat
  object_size : Nat
  checksum : Option Str
  transforms : Option (List TransformEntry)
  hmac : Option Str
deriving DecidableEq, Repr

/-- Modelled from the spec: `DictHMAC.add_hexdigest` from
`benji.storage.dicthmac` (not in src/).  The digest of the record without its
`hmac` field (computed by the abstract keyed digest `f`) is inserted as the
`hmac` field (spec §4.C). -/
def add_hexdigest (f : Metadata → Str) (metadata : Metadata) : Metadata :=
  { metadata with hmac := some (f { metadata with hmac := none }) }

/-- Errors surfaced by the read path of `StorageBase`. -/
inductive ReadErr where
  /-- `FileNotFoundError` from the backend for a missing key. -/
  | notFound (key : Str)
  /-- HMAC verification failed (or the `hmac` field was absent while a key is
  configured). -/
  | integrity
  /-- Length mismatch between the fetched payload and `object_size`
  (src/benji/storage/base.py:134-136). -/
  | objectSizeMismatch (expected got : Nat)
  /-- `KeyError`: block metadata without a `checksum` field
  (src/benji/storage/base.py:218-220). -/
  | checksumKeyMissing
  /-- `ConfigurationError`: recorded transform module differs from the
  currently registered module (src/benji/storage/base.py:394-396). -/
  | configMismatch (name stored current : Str)
  /-- `IOError`: recorded transform name is not registered
  (src/benji/storage/base.py:400). -/
  | unknownTransform (name : Str)
deriving DecidableEq, Repr

/-- Modelled from the spec: `DictHMAC.verify_hexdigest` from
`benji.storage.dicthmac` (not in src/).  Extract the `hmac` field, re-digest
the remainder identically and compare; mismatch or absence fails the
integrity check (spec §4.C). -/
def verify_hexdigest (f : Metadata → Str) (metadata : Metadata) : Except ReadErr Unit :=
  match metadata.hmac with
  | some h => if h = f { metadata with hmac := none } then .ok () else .error .integrity
  | none => .error .integrity

/-- `StorageBase._encapsulate` (src/benji/storage/base.py:372-386) on the
active-transform list: apply each transform in order; a falsy result
(`None` or empty bytes) means the transform declined, the payload passes
through unchanged and no metadata entry is appended.  The
`_active_transforms is not None` guard of the source is vacuous (the
attribute is always a list) and is omitted. -/
def _encapsulate : List Transform → Data → Data × List TransformEntry
  | [], data => (data, [])
  | t :: ts, data =>
    match t.encapsulate data with
    | (some d', materials) =>
      if d'.isEmpty then _encapsulate ts data
      else ((_encapsulate ts d').1, ⟨t.name, t.module, materials⟩ :: (_encapsulate ts d').2)
    | (none, _) => _encapsulate ts data

/-- One iteration of the loop body of `StorageBase._decapsulate`
(src/benji/storage/base.py:389-400): re-resolve the recorded name, check the
module, apply the inverse transform. -/
def decapsulateStep (registry : List Transform) (data : Data) (element : TransformEntry) :
    Except ReadErr Data :=
  match getByName registry element.name with
  | some t =>
    if element.module ≠ t.module then
      .error (.configMismatch element.name element.module t.module)
    else .ok (t.decapsulate data element.materials)
  | none => .error (.unknownTransform element.name)

/-- The loop of `_decapsulate`, processing an already-reversed entry list. -/
def decapsulateLoop (registry : List Transform) : Data → List TransformEntry → Except ReadErr Data
  | data, [] => .ok data
  | data, e :: rest => do
    let d' ← decapsulateStep registry data e
    decapsulateLoop registry d' rest

/-- `StorageBase._decapsulate` (src/benji/storage/base.py:388-401): process
the recorded `transforms` list in reverse order. -/
def _decapsulate (registry : List Transform) (data : Data)
    (transforms_metadata : List TransformEntry) : Except ReadErr Data :=
  decapsulateLoop registry data transforms_metadata.reverse

/-- `DereferencedBlock` (from `benji.metadata`): the block handle the storage
core receives; `checksum` is nullable (spec §3). -/
structure DereferencedBlock where
  uid : BlockUid
  id : Nat
  size : Nat
  checksum : Option Str
deriving DecidableEq, Repr

/-- The per-storage state assembled by `StorageBase.__init__` that the
save/read paths consult: the transform registry (`TransformFactory`), the
configured `activeTransforms` names, the optional metadata HMAC (the abstract
keyed digest of `DictHMAC`), and the abstracted `md5` hexdigest used by the
key codec. -/
structure StorageConfig where
  registry : List Transform
  activeTransformNames : List Str
  hmac : Option (Metadata → Str)
  md5hex : Str → Str

/-- `self._active_transforms` (src/benji/storage/base.py:46-51): the
transforms resolved by name from the registry at construction. -/
def activeTransforms (cfg : StorageConfig) : List Transform :=
  cfg.activeTransformNames.filterMap (getByName cfg.registry)

/-- One hexadecimal digit character (lowercase), as produced by `%x`. -/
def hexDigitChar (n : Nat) : Char :=
  if n < 10 then Char.ofNat ('0'.toNat + n) else Char.ofNat ('a'.toNat + (n - 10))

/-- Python `'{:016x}'.format n` for a 64-bit value (16 hex digits, most
significant first). -/
def formatHex16 (n : Nat) : Str :=
  (List.range 16).reverse.map fun i => hexDigitChar (n / 16 ^ i % 16)

/-- `StorageBase._block_uid_to_key` (src/benji/storage/base.py:446-447). -/
def _block_uid_to_key (cfg : StorageConfig) (block_uid : BlockUid) : Str :=
  _to_key cfg.md5hex _BLOCKS_PREFIX
    (formatHex16 block_uid.left ++ ['-'] ++ formatHex16 block_uid.right)

/-- The backend object store (§4.H): partial maps for payload bytes and for
decoded `.meta` sidecar records, both indexed by the payload key (the
`.meta` suffixing is injective). -/
structure Store where
  data : Str → Option Data
  meta : Str → Option Metadata

/-- The empty backend. -/
def emptyStore : Store := ⟨fun _ => none, fun _ => none⟩

/-- Backend `read_object` for a payload key: fails not-found if absent. -/
def _read_object_data (s : Store) (key : Str) : Except ReadErr Data :=
  match s.data key with
  | some d => .ok d
  | none => .error (.notFound key)

/-- Backend `read_object_length` for a payload key. -/
def _read_object_length (s : Store) (key : Str) : Except ReadErr Nat :=
  match s.data key with
  | some d => .ok d.length
  | none => .error (.notFound key)

/-- Backend `read_object` for a `.meta` key, with the JSON decode folded in. -/
def _read_object_meta (s : Store) (key : Str) : Except ReadErr Metadata :=
  match s.meta key with
  | some m => .ok m
  | none => .error (.notFound (key ++ _META_SUFFIX))

/-- `StorageBase._build_metadata` (src/benji/storage/base.py:102-122): record
`size` and `object_size`; record `checksum` and `transforms` only when truthy
(a `None`/empty checksum and an empty transform list are omitted); when an
HMAC key is configured, insert the digest.  The compact-JSON bytes returned
alongside the dict in the source are represented by the record itself. -/
def _build_metadata (hmac : Option (Metadata → Str)) (size object_size : Nat)
    (transforms_metadata : List TransformEntry) (checksum : Option Str) : Metadata :=
  let metadata : Metadata :=
    { size := size
      object_size := object_size
      checksum := if strTruthy checksum then checksum else none
      transforms := if transforms_metadata.isEmpty then none else some transforms_metadata
      hmac := none }
  match hmac with
  | some f => add_hexdigest f metadata
  | none => metadata

/-- `StorageBase._decode_metadata` (src/benji/storage/base.py:124-138): verify
the HMAC when configured, then require the fetched payload length to equal
`object_size`.  The required-key presence check of the source is vacuous in
the typed record (`size` and `object_size` are total fields). -/
def _decode_metadata (hmac : Option (Metadata → Str)) (metadata : Metadata)
    (data_length : Nat) : Except ReadErr Metadata := do
  match hmac with
  | some f => verify_hexdigest f metadata
  | none => pure ()
  if data_length ≠ metadata.object_size then
    throw (.objectSizeMismatch metadata.object_size data_length)
  pure metadata

/-- `StorageBase._write` (src/benji/storage/base.py:151-179), success path:
encapsulate, build the metadata record with `size := block.size`,
`object_size := len(stored)`, `checksum := block.checksum`, then store the
payload object and its sidecar.  Returns the updated backend together with
the stored (encapsulated) payload and the metadata record.  The token-bucket
sleep and the optional consistency check do not change the stored state on
this path. -/
def _write (cfg : StorageConfig) (s : Store) (block : DereferencedBlock) (data : Data) :
    Store × Data × Metadata :=
  let r := _encapsulate (activeTransforms cfg) data
  let metadata := _build_metadata cfg.hmac block.size r.1.length r.2 block.checksum
  let key := _block_uid_to_key cfg block.uid
  ({ data := updateF s.data key (some r.1)
     meta := updateF s.meta key (some metadata) }, r.1, metadata)

/-- The byte count handed to `self.read_throttling.consume` on line 213 of
src/benji/storage/base.py: the Python conditional expression
`len(data) if data else 0 + len(metadata_json)` groups as
`len(data) if data else (0 + len(metadata_json))`. -/
def read_throttling_consume_bytes (data : Option Data) (metadata_json : Data) : Nat :=
  if dataTruthy data then (match data with | some d => d.length | none => 0)
  else 0 + metadata_json.length

/-- The byte count the spec prescribes for the read throttle (§9, open
question): `bytes_transferred = (len(data) if data else 0) + len(metadata_json)`.
This definition follows the spec's words, for comparison with
`read_throttling_consume_bytes` above. -/
def spec_read_bytes_transferred (data : Option Data) (metadata_json : Data) : Nat :=
  (if dataTruthy data then (match data with | some d => d.length | none => 0) else 0)
    + metadata_json.length

/-- `StorageBase._read` (src/benji/storage/base.py:202-228): fetch the payload
(or only its length when `metadata_only`), fetch and decode the sidecar,
require a `checksum` field, and decapsulate a fetched payload when transforms
are recorded.  The token-bucket sleep affects timing only. -/
def _read (cfg : StorageConfig) (s : Store) (block : DereferencedBlock)
    (metadata_only : Bool) : Except ReadErr (DereferencedBlock × Option Data × Metadata) := do
  let key := _block_uid_to_key cfg block.uid
  let dl ←
    if metadata_only then do
      let data_length ← _read_object_length s key
      pure ((none : Option Data), data_length)
    else do
      let d ← _read_object_data s key
      pure (some d, d.length)
  let metadata_json ← _read_object_meta s key
  let metadata ← _decode_metadata cfg.hmac metadata_json dl.2
  if metadata.checksum = none then
    throw .checksumKeyMissing
  let data ←
    match metadata_only, metadata.transforms, dl.1 with
    | false, some tms, some d => do
      let d' ← _decapsulate cfg.registry d tms
      pure (some d')
    | _, _, _ => pure dl.1
  pure (block, data, metadata)

/-- `ConfigurationError` raised during `StorageBase.__init__`. -/
inductive ConfigErr where
  /-- Some but not all of the HMAC KDF configuration keys are set
  (src/benji/storage/base.py:69-71). -/
  | hmacPartialConfig
deriving DecidableEq, Repr

/-- Modelled from the spec: `derive_key` from `benji.utils` (not in src/), a
KDF producing a key from `(salt, iterations, password)` (spec §4.C).  The
concrete digest is irrelevant to every claim; any total function suffices. -/
def derive_key (salt : Data) (iterations : Nat) (password : Str) : Data :=
  salt ++ password.map Char.toNat ++ [iterations % 256]

/-- `hmac_config_options_count` (src/benji/storage/base.py:67-68): how many of
`hmac.kdfSalt`, `hmac.kdfIterations`, `hmac.password` are set. -/
def hmac_config_options_count (kdfSalt : Option Data) (kdfIterations : Option Nat)
    (password : Option Str) : Nat :=
  (if kdfSalt.isSome then 1 else 0) + (if kdfIterations.isSome then 1 else 0)
    + (if password.isSome then 1 else 0)

/-- The HMAC-key part of `StorageBase.__init__`
(src/benji/storage/base.py:61-79): when `hmac.key` is set, it is used as is
and the KDF options are never examined; otherwise, setting some but not all
of the three KDF options is a configuration error, and setting all three
derives the key. -/
def hmacSetup (key : Option Data) (kdfSalt : Option Data) (kdfIterations : Option Nat)
    (password : Option Str) : Except ConfigErr (Option Data) :=
  match key with
  | some k => .ok (some k)
  | none =>
    if 0 < hmac_config_options_count kdfSalt kdfIterations password ∧
        hmac_config_options_count kdfSalt kdfIterations password < 3 then
      .error .hmacPartialConfig
    else
      match kdfSalt, kdfIterations, password with
      | some salt, some iterations, some pw => .ok (some (derive_key salt iterations pw))
      | _, _, _ => .ok none

/-- The exception re-raised out of a failed save. -/
inductive WriteErr where
  /-- The backend `write_object` of the payload raised. -/
  | dataWriteFailed
  /-- The backend `write_object` of the metadata object raised. -/
  | metaWriteFailed
deriving DecidableEq, Repr

/-- Backend `rm_object` of a payload key: `FileNotFoundError` (modelled as
`Except Unit`) when the key is absent, otherwise the store without it. -/
def _rm_object_data (s : Store) (key : Str) : Except Unit Store :=
  match s.data key with
  | some _ => .ok { s with data := updateF s.data key none }
  | none => .error ()

/-- Backend `rm_object` of a `.meta` key. -/
def _rm_object_meta (s : Store) (key : Str) : Except Unit Store :=
  match s.meta key with
  | some _ => .ok { s with meta := updateF s.meta key none }
  | none => .error ()

/-- The cleanup handler of `StorageBase._write`
(src/benji/storage/base.py:166-170): `rm_object(key)` then
`rm_object(metadata_key)` inside a single `except FileNotFoundError: pass`,
so a not-found raised by the payload removal aborts the handler and the
metadata removal is never attempted. -/
def writeCleanup (s : Store) (key : Str) : Store :=
  match _rm_object_data s key with
  | .error _ => s
  | .ok s1 =>
    match _rm_object_meta s1 key with
    | .error _ => s1
    | .ok s2 => s2

/-- The write-and-cleanup block of `StorageBase._write`
(src/benji/storage/base.py:162-171): write the payload object, then the
metadata object; if either raises (`dataFails` / `metaFails` say which backend
call fails; a failed write leaves the store unchanged), run the cleanup
handler and re-raise the original exception.  Returns the raised exception
(if any) together with the final backend state. -/
def writeObjectsWithCleanup (dataFails metaFails : Bool) (key : Str) (data : Data)
    (metadata : Metadata) (s : Store) : Option WriteErr × Store :=
  if dataFails then (some .dataWriteFailed, writeCleanup s key)
  else
    let s1 : Store := { s with data := updateF s.data key (some data) }
    if metaFails then (some .metaWriteFailed, writeCleanup s1 key)
    else (none, { s1 with meta := updateF s1.meta key (some metadata) })

/-- `ValueError` raised by `check_block_metadata`, naming the offending
field, plus the `KeyError` a missing `checksum` metadata key would raise. -/
inductive CheckErr where
  /-- `metadata.size` differs from `block.size`
  (src/benji/storage/base.py:250-252). -/
  | metadataSizeMismatch
  /-- the supplied `data_length` differs from `block.size`
  (src/benji/storage/base.py:254-256). -/
  | dataLengthMismatch
  /-- `metadata.checksum` differs from `block.checksum`
  (src/benji/storage/base.py:258-264). -/
  | checksumMismatch
  /-- `KeyError` from `metadata[CHECKSUM]` when the field is absent. -/
  | checksumKeyError
deriving DecidableEq, Repr

/-- Truthiness of the optional `data_length` argument (`None` and `0` are
falsy). -/
def dataLengthTruthy : Option Nat → Bool
  | some n => n ≠ 0
  | none => false

/-- `StorageBase.check_block_metadata` (src/benji/storage/base.py:248-264).
The `data_length` guard is the Python condition
`data_length and data_length != block.size`: a falsy `data_length` (absent or
zero) skips the comparison. -/
def check_block_metadata (block : DereferencedBlock) (data_length : Option Nat)
    (metadata : Metadata) : Except CheckErr Unit :=
  if metadata.size ≠ block.size then .error .metadataSizeMismatch
  else if dataLengthTruthy data_length = true ∧ data_length ≠ some block.size then
    .error .dataLengthMismatch
  else
    match metadata.checksum with
    | none => .error .checksumKeyError
    | some c => if block.checksum ≠ some c then .error .checksumMismatch else .ok ()

/-- The disk read cache of `ReadCacheStorageBase` (`diskcache.Cache`): values
cached under `.meta` keys are decoded metadata records, values cached under
payload keys are bytes.  As for `Store`, the metadata map is indexed by the
payload key. -/
structure ReadCache where
  meta : Str → Option Metadata
  data : Str → Option Data

/-- The cache-miss tail of `ReadCacheStorageBase._read`
(src/benji/storage/base.py:534-542): delegate to the base read and, when a
cache exists, always populate it (metadata always; data when fetched), even
when reading from the cache is disabled.  A failing base read propagates and
populates nothing. -/
def cachedReadMiss (cfg : StorageConfig) (rc : Option ReadCache) (s : Store)
    (block : DereferencedBlock) (metadata_only : Bool) (key : Str) :
    Except ReadErr (DereferencedBlock × Option Data × Metadata) × Option ReadCache :=
  match _read cfg s block metadata_only with
  | .error e => (.error e, rc)
  | .ok (b', d', m') =>
    match rc with
    | some c =>
      let c1 : ReadCache := { c with meta := updateF c.meta key (some m') }
      let c2 : ReadCache :=
        if metadata_only then c1
        else
          match d' with
          | some dd => { c1 with data := updateF c1.data key (some dd) }
          | none => c1
      (.ok (b', d', m'), some c2)
    | none => (.ok (b', d', m'), none)

/-- `ReadCacheStorageBase._read` (src/benji/storage/base.py:522-542).
`rc` is `self._read_cache` (`none` when caching is unconfigured or its
construction failed) and `use_read_cache` is `self._use_read_cache`.  A hit
needs a truthy cached value: every decoded metadata record is a non-empty
dict and hence truthy, while cached payload bytes are falsy when empty.
Returns the read result and the cache state after the call. -/
def cachedRead (cfg : StorageConfig) (rc : Option ReadCache) (use_read_cache : Bool)
    (s : Store) (block : DereferencedBlock) (metadata_only : Bool) :
    Except ReadErr (DereferencedBlock × Option Data × Metadata) × Option ReadCache :=
  let key := _block_uid_to_key cfg block.uid
  match rc, use_read_cache with
  | some c, true =>
    match c.meta key with
    | some metadata =>
      if metadata_only then (.ok (block, none, metadata), rc)
      else
        match c.data key with
        | some data =>
          if data.isEmpty then cachedReadMiss cfg rc s block metadata_only key
          else (.ok (block, some data, metadata), rc)
        | none => cachedReadMiss cfg rc s block metadata_only key
    | none => cachedReadMiss cfg rc s block metadata_only key
  | _, _ => cachedReadMiss cfg rc s block metadata_only key

/-- Decidable equality of `Except` results, for evaluating the model on
concrete inputs. -/
instance {ε α : Type} [DecidableEq ε] [DecidableEq α] : DecidableEq (Except ε α) :=
  fun x y =>
    match x, y with
    | .ok a, .ok b =>
      match decEq a b with
      | isTrue h => isTrue (h ▸ rfl)
      | isFalse h => isFalse fun hh => h (by cases hh; rfl)
    | .error a, .error b =>
      match decEq a b with
      | isTrue h => isTrue (h ▸ rfl)
      | isFalse h => isFalse fun hh => h (by cases hh; rfl)
    | .ok _, .error _ => isFalse fun h => Except.noConfusion h
    | .error _, .ok _ => isFalse fun h => Except.noConfusion h

/-- C3: the byte count passed to the read token bucket.  The source's
expression `len(data) if data else 0 + len(metadata_json)` groups as
`len(data) if data else (0 + len(metadata_json))`: on a full read of a
non-empty 3-byte payload with a 10-byte metadata object the code consumes
3 bytes, while the specified accounting
`(len(data) if data else 0) + len(metadata_json)` gives 13; the two agree
only when the payload is absent or empty (the metadata-only case). -/
theorem read_throttle_consume_divergence :
    read_throttling_consume_bytes (some [0, 1, 2]) (List.replicate 10 7) = 3 ∧
    spec_read_bytes_transferred (some [0, 1, 2]) (List.replicate 10 7) = 13 ∧
    read_throttling_consume_bytes none (List.replicate 10 7)
      = spec_read_bytes_transferred none (List.replicate 10 7) := by
  decide

/-- C4 counterexample: a configuration that sets `hmac.key` directly and also
sets `hmac.kdfSalt` (one of three KDF keys, so "at least one but not all")
constructs successfully — the source never examines the KDF keys when
`hmac.key` is set — contradicting the claim that every such configuration
fails with a configuration error. -/
theorem hmac_key_bypass_counterexample :
    hmacSetup (some [1]) (some [2]) none none = Except.ok (some [1]) := by
  rfl

/-- C4 (amended): when `hmac.key` is *not* set and at least one but not all of
`hmac.kdfSalt`, `hmac.kdfIterations`, `hmac.password` are set, construction
fails with a configuration error. -/
theorem hmac_partial_config_error (kdfSalt : Option Data) (kdfIterations : Option Nat)
    (password : Option Str)
    (h1 : 0 < hmac_config_options_count kdfSalt kdfIterations password)
    (h2 : hmac_config_options_count kdfSalt kdfIterations password < 3) :
    hmacSetup none kdfSalt kdfIterations password = .error .hmacPartialConfig := by
  simp [hmacSetup, h1, h2]

/-- C4 witness: only `hmac.kdfSalt` set, no direct key. -/
theorem hmac_partial_config_error_witness :
    hmacSetup none (some [2]) none none = Except.error ConfigErr.hmacPartialConfig :=
  hmac_partial_config_error (some [2]) none none (by decide) (by decide)

/-- C6 counterexample: with `data_length = 0` supplied and `block.size = 5`,
the claim demands a value error, but the Python guard
`data_length and data_length != block.size` is falsy for `0`, so the check
returns successfully (all other fields agree). -/
theorem check_block_metadata_zero_length_counterexample :
    check_block_metadata ⟨⟨1, 2⟩, 3, 5, some ['a']⟩ (some 0) ⟨5, 5, some ['a'], none, none⟩
      = Except.ok () ∧ (some 0 : Option Nat) ≠ some (5 : Nat) := by
  decide

/-- C6 (amended): `check_block_metadata` fails with a value error naming the
offending field whenever `metadata.size != block.size`, whenever a *truthy*
`data_length` (provided and non-zero; Python truthiness) differs from
`block.size`, and whenever the metadata checksum is present but differs from
`block.checksum`; it returns successfully exactly when none of these
mismatches hold and the checksum field is present and equal. -/
theorem check_block_metadata_characterization (block : DereferencedBlock)
    (data_length : Option Nat) (metadata : Metadata) :
    (check_block_metadata block data_length metadata = .ok () ↔
      metadata.size = block.size
        ∧ ¬(dataLengthTruthy data_length = true ∧ data_length ≠ some block.size)
        ∧ metadata.checksum ≠ none ∧ block.checksum = metadata.checksum)
    ∧ (metadata.size ≠ block.size →
        check_block_metadata block data_length metadata = .error .metadataSizeMismatch)
    ∧ (metadata.size = block.size → dataLengthTruthy data_length = true →
        data_length ≠ some block.size →
        check_block_metadata block data_length metadata = .error .dataLengthMismatch)
    ∧ (metadata.size = block.size →
        ¬(dataLengthTruthy data_length = true ∧ data_length ≠ some block.size) →
        ∀ c, metadata.checksum = some c → block.checksum ≠ some c →
        check_block_metadata block data_length metadata = .error .checksumMismatch) := by
  unfold check_block_metadata
  rcases hc : metadata.checksum with _ | c <;> dsimp only <;>
    split_ifs <;> simp_all <;> tauto

/-- C6 witness for the amended characterization: a block of size 5 with a
matching metadata record and a truthy mismatching `data_length = 4` fails
naming the data-length field. -/
theorem check_block_metadata_characterization_witness :
    check_block_metadata ⟨⟨1, 2⟩, 3, 5, some ['a']⟩ (some 4) ⟨5, 5, some ['a'], none, none⟩
      = Except.error CheckErr.dataLengthMismatch :=
  (check_block_metadata_characterization ⟨⟨1, 2⟩, 3, 5, some ['a']⟩ (some 4)
      ⟨5, 5, some ['a'], none, none⟩).2.2.1 (by decide) (by decide) (by decide)

/-- C7 counterexample: the claim asserts that every key starting with the
namespace string and of length at least `len(pfx) + 6` succeeds, but the
source raises on `len(key) <= len(pfx) + 6`; a 13-character key over the
7-character `blocks/` namespace (length exactly `len(pfx) + 6`) fails. -/
theorem from_key_boundary_counterexample :
    _from_key "blocks/".toList "blocks/ab/cd/".toList = Except.error KeyErr.badKeyLength ∧
    "blocks/".toList.isPrefixOf "blocks/ab/cd/".toList = true ∧
    "blocks/ab/cd/".toList.length = "blocks/".toList.length + 6 := by
  decide

/-- C7 (amended): `_from_key` succeeds exactly on keys that start with the
namespace string and are *strictly longer* than `len(pfx) + 6`, returning the
key with its first `len(pfx) + 6` characters stripped; keys not starting with
the namespace string, and keys of length at most `len(pfx) + 6`, fail with an
invalid-key error. -/
theorem from_key_characterization (pfx key : Str) :
    (pfx.isPrefixOf key = true → pfx.length + 6 < key.length →
      _from_key pfx key = .ok (key.drop (pfx.length + 6)))
    ∧ (pfx.isPrefixOf key = false → _from_key pfx key = .error .badKeyStart)
    ∧ (pfx.isPrefixOf key = true → key.length ≤ pfx.length + 6 →
      _from_key pfx key = .error .badKeyLength) := by
  refine ⟨fun h1 h2 => ?_, fun h1 => ?_, fun h1 h2 => ?_⟩ <;>
    simp [_from_key, h1] <;> omega

/-- C7 witness: a well-formed 14-character key over the `blocks/` namespace
decodes to its final character. -/
theorem from_key_characterization_witness :
    _from_key "blocks/".toList "blocks/ab/cd/X".toList = Except.ok ['X'] :=
  (from_key_characterization "blocks/".toList "blocks/ab/cd/X".toList).1
    (by decide) (by decide)

theorem decapsulateLoop_append (registry : List Transform) (data : Data)
    (l1 l2 : List TransformEntry) :
    decapsulateLoop registry data (l1 ++ l2) =
      (decapsulateLoop registry data l1).bind
        (fun d' => decapsulateLoop registry d' l2) := by
  induction l1 generalizing data with
  | nil => simp [decapsulateLoop, Except.bind]
  | cons e rest ih =>
    simp only [List.cons_append, decapsulateLoop]
    cases h : decapsulateStep registry data e <;>
      simp [Except.bind, h, ih, bind]

/-- C8: decapsulation processes the recorded `transforms` list in reverse
order of the stored list — appending an entry to the stored list makes it the
*first* entry processed — and each step fails with a configuration-mismatch
error when the entry's stored module differs from the currently registered
module for that name, and with an unknown-transform error when no transform
of the recorded name is registered. -/
theorem decapsulate_reverse_order_and_errors (registry : List Transform) (data : Data)
    (transforms_metadata : List TransformEntry) (e : TransformEntry) :
    (_decapsulate registry data (transforms_metadata ++ [e]) =
      match getByName registry e.name with
      | some t =>
        if e.module ≠ t.module then .error (.configMismatch e.name e.module t.module)
        else _decapsulate registry (t.decapsulate data e.materials) transforms_metadata
      | none => .error (.unknownTransform e.name)) ∧
    _decapsulate registry data [] = .ok data := by
  constructor
  · simp only [_decapsulate, List.reverse_append, List.reverse_cons, List.reverse_nil,
      List.nil_append, List.singleton_append, decapsulateLoop]
    cases h : getByName registry e.name with
    | none => simp [decapsulateStep, h, Except.bind, bind]
    | some t =>
      by_cases hm : e.module = t.module <;>
        simp [decapsulateStep, h, hm, Except.bind, bind]
  · rfl

/-- C9 counterexample: the stray key
`blocks/aa/bb/0x00000000000001-0000000000000002` contains the non-hex UID
character `x`, yet Python `int(_, 16)` accepts the `0x` prefix
(`int('0x00000000000001', 16) == 1`), so `list_blocks` decodes the key and
*includes* `(1, 2)` in its result — contradicting the claim that every key
with non-hex UID characters is silently omitted. -/
theorem list_blocks_hex_prefix_counterexample :
    list_blocks ["blocks/aa/bb/0x00000000000001-0000000000000002".toList]
      = [⟨1, 2⟩] ∧ hexDigit? 'x' = none := by
  decide

/-- C9 (amended): `list_blocks` never raises because of stray keys: a block
UID is in the result exactly when some listed key not ending in `.meta`
structurally decodes to it — right prefix, right length, and both UID halves
accepted by `int(_, 16)`.  `.meta` keys and undecodable stray keys (e.g.
`blocks/xx/yy/not-a-uid`) are silently omitted and all well-formed keys are
decoded and included; but since `int(_, 16)` also accepts `0x`/`0X`
prefixes, surrounding whitespace, signs and digit underscores, *some* keys
containing non-hex UID characters are decoded and included rather than
omitted. -/
theorem list_blocks_tolerates_stray_keys :
    (∀ (keys : List Str) (uid : BlockUid),
      uid ∈ list_blocks keys ↔
        ∃ key, key ∈ keys ∧ _META_SUFFIX.isSuffixOf key = false ∧
          _key_to_block_uid key = .ok uid) ∧
    list_blocks ["blocks/ab/cd/0000000000000001-0000000000000002".toList,
      "blocks/xx/yy/not-a-uid".toList,
      "blocks/ab/cd/0000000000000001-0000000000000002.meta".toList] = [⟨1, 2⟩] := by
  constructor
  · intro keys uid
    induction keys with
    | nil => simp [list_blocks]
    | cons k ks ih =>
      by_cases hm : _META_SUFFIX.isSuffixOf k
      · rw [list_blocks, if_pos hm, ih]
        constructor
        · rintro ⟨key, hk, h1, h2⟩
          exact ⟨key, List.mem_cons_of_mem _ hk, h1, h2⟩
        · rintro ⟨key, hk, h1, h2⟩
          rcases List.mem_cons.mp hk with rfl | hk
          · rw [hm] at h1; cases h1
          · exact ⟨key, hk, h1, h2⟩
      · rw [list_blocks, if_neg hm]
        cases hd : _key_to_block_uid k with
        | ok u =>
          rw [List.mem_cons, ih]
          constructor
          · rintro (rfl | ⟨key, hk, h1, h2⟩)
            · exact ⟨k, List.mem_cons_self _ _, Bool.not_eq_true _ ▸ (by simpa using hm), hd⟩
            · exact ⟨key, List.mem_cons_of_mem _ hk, h1, h2⟩
          · rintro ⟨key, hk, h1, h2⟩
            rcases List.mem_cons.mp hk with rfl | hk
            · rw [hd] at h2; cases h2; exact Or.inl rfl
            · exact Or.inr ⟨key, hk, h1, h2⟩
        | error err =>
          rw [ih]
          constructor
          · rintro ⟨key, hk, h1, h2⟩
            exact ⟨key, List.mem_cons_of_mem _ hk, h1, h2⟩
          · rintro ⟨key, hk, h1, h2⟩
            rcases List.mem_cons.mp hk with rfl | hk
            · rw [hd] at h2; cases h2
            · exact ⟨key, hk, h1, h2⟩
  · decide

/-- C5 counterexample: the payload write fails while no payload object exists
but a stale metadata object does.  The cleanup handler's payload removal
raises not-found, which aborts the single `except FileNotFoundError` block,
so the metadata object removal is never attempted and the stale metadata
object survives — contradicting the claim that removal of both objects is
attempted with not-found ignored on each removal. -/
theorem write_cleanup_skips_metadata_counterexample :
    (writeObjectsWithCleanup true false "k".toList [1] ⟨1, 1, none, none, none⟩
        ⟨fun _ => none,
          fun key => if key = "k".toList then some ⟨9, 9, none, none, none⟩ else none⟩).1
      = some WriteErr.dataWriteFailed ∧
    (writeObjectsWithCleanup true false "k".toList [1] ⟨1, 1, none, none, none⟩
        ⟨fun _ => none,
          fun key => if key = "k".toList then some ⟨9, 9, none, none, none⟩ else none⟩).2.meta
        "k".toList
      = some ⟨9, 9, none, none, none⟩ := by
  decide

/-- C5 (amended): if writing the payload or the metadata object fails, the
original write failure is re-raised after a cleanup that runs
`rm(payload)` then `rm(metadata)` inside a single not-found handler.  When
the payload object is present at cleanup time (always the case for a
metadata-write failure) both objects are absent afterwards; when the payload
write failed with no payload object present, the not-found from the payload
removal aborts the handler and nothing is removed. -/
theorem write_failure_cleanup (dataFails metaFails : Bool) (key : Str) (data : Data)
    (metadata : Metadata) (s : Store)
    (h : dataFails = true ∨ metaFails = true) :
    ((writeObjectsWithCleanup dataFails metaFails key data metadata s).1
      = some (if dataFails then .dataWriteFailed else .metaWriteFailed)) ∧
    (dataFails = true → s.data key = none →
      (writeObjectsWithCleanup dataFails metaFails key data metadata s).2 = s) ∧
    (dataFails = true → s.data key ≠ none →
      (writeObjectsWithCleanup dataFails metaFails key data metadata s).2.data key = none ∧
      (writeObjectsWithCleanup dataFails metaFails key data metadata s).2.meta key = none) ∧
    (dataFails = false → metaFails = true →
      (writeObjectsWithCleanup dataFails metaFails key data metadata s).2.data key = none ∧
      (writeObjectsWithCleanup dataFails metaFails key data metadata s).2.meta key = none) := by
  cases dataFails with
  | true =>
    refine ⟨by simp [writeObjectsWithCleanup], fun _ hnone => ?_, fun _ hsome => ?_,
      by simp⟩
    · simp [writeObjectsWithCleanup, writeCleanup, _rm_object_data, hnone]
    · rcases hd : s.data key with _ | d0
      · exact absurd hd hsome
      · rcases hm : s.meta key with _ | m <;>
          simp [writeObjectsWithCleanup, writeCleanup, _rm_object_data, _rm_object_meta,
            hd, hm, updateF_same, updateF]
  | false =>
    cases metaFails with
    | true =>
      refine ⟨by simp [writeObjectsWithCleanup], by simp, by simp, fun _ _ => ?_⟩
      rcases hm : s.meta key with _ | m <;>
        simp [writeObjectsWithCleanup, writeCleanup, _rm_object_data, _rm_object_meta,
          hm, updateF_same, updateF]
    | false => simp at h

/-- C5 witness: metadata write fails on an empty backend; the original
failure is surfaced and both objects are absent afterwards. -/
theorem write_failure_cleanup_witness :
    (writeObjectsWithCleanup false true "k".toList [1] ⟨1, 1, none, none, none⟩
        emptyStore).1 = some WriteErr.metaWriteFailed ∧
    (writeObjectsWithCleanup false true "k".toList [1] ⟨1, 1, none, none, none⟩
        emptyStore).2.data "k".toList = none ∧
    (writeObjectsWithCleanup false true "k".toList [1] ⟨1, 1, none, none, none⟩
        emptyStore).2.meta "k".toList = none := by
  have h := write_failure_cleanup false true "k".toList [1] ⟨1, 1, none, none, none⟩
    emptyStore (Or.inr rfl)
  exact ⟨h.1, (h.2.2.2 rfl rfl).1, (h.2.2.2 rfl rfl).2⟩

/-- A trivial storage configuration: no transforms, no HMAC, identity in
place of the md5 hexdigest (the fan-out characters are irrelevant to every
claim). -/
def cfgPlain : StorageConfig := ⟨[], [], none, fun s => s⟩

/-- C2 (amended): the metadata record written by save has
`size == block.size` (the block's declared size — not `len(d)`; the source
passes `size=block.size` on line 155), `object_size == len(encapsulate(d))`,
and the `checksum` key present iff `block.checksum` is truthy, in which case
it equals `block.checksum`. -/
theorem save_metadata_fields (cfg : StorageConfig) (s : Store)
    (block : DereferencedBlock) (data : Data) :
    ((_write cfg s block data).2.2.size = block.size) ∧
    ((_write cfg s block data).2.2.object_size
      = (_encapsulate (activeTransforms cfg) data).1.length) ∧
    ((_write cfg s block data).2.2.checksum
      = if strTruthy block.checksum then block.checksum else none) := by
  cases hh : cfg.hmac <;>
    simp [_write, _build_metadata, add_hexdigest, hh]

/-- C2 counterexample: saving 4 bytes into a block whose declared size is 7
records `size = 7`, not `len(d) = 4` — the claim's `size == len(d)` is false
(the source records `block.size`, with no precondition tying it to
`len(d)`). -/
theorem save_metadata_size_counterexample :
    (_write cfgPlain emptyStore ⟨⟨1, 2⟩, 0, 7, some ['a']⟩ [0, 0, 0, 0]).2.2.size = 7 ∧
    ([0, 0, 0, 0] : Data).length = 4 := by
  decide

/-- C1 counterexample: for a block whose `checksum` is null, save completes
(the `checksum` metadata key is simply omitted) but the subsequent
synchronous read fails with the missing-`checksum` `KeyError` of
src/benji/storage/base.py:218-220 instead of returning the data. -/
theorem roundtrip_checksum_counterexample :
    _read cfgPlain (_write cfgPlain emptyStore ⟨⟨1, 2⟩, 0, 1, none⟩ [1]).1
        ⟨⟨1, 2⟩, 0, 1, none⟩ false
      = .error .checksumKeyMissing := by
  decide

/-- C1's hypothesis on a transform: whenever `encapsulate` returns a truthy
payload (with its materials), `decapsulate` on that payload and those
materials restores the input. -/
def Inverts (t : Transform) : Prop :=
  ∀ data d' materials, t.encapsulate data = (some d', materials) →
    d'.isEmpty = false → t.decapsulate d' materials = data

theorem getByName_self (registry : List Transform) (n : Str) (t : Transform)
    (h : getByName registry n = some t) : getByName registry t.name = some t := by
  have hp := List.find?_some h
  simp only [decide_eq_true_eq] at hp
  rw [hp]
  exact h

theorem activeTransforms_mem (cfg : StorageConfig) (t : Transform)
    (h : t ∈ activeTransforms cfg) : getByName cfg.registry t.name = some t := by
  rw [activeTransforms, List.mem_filterMap] at h
  obtain ⟨n, _, hn⟩ := h
  exact getByName_self cfg.registry n t hn

theorem encapsulate_nil_transforms (ts : List Transform) (data : Data)
    (h : (_encapsulate ts data).2 = []) : (_encapsulate ts data).1 = data := by
  induction ts generalizing data with
  | nil => rfl
  | cons t ts ih =>
    rcases he : t.encapsulate data with ⟨od, materials⟩
    rcases od with _ | d'
    · rw [_encapsulate, he] at h ⊢
      exact ih data h
    · by_cases hemp : d'.isEmpty
      · simp only [_encapsulate, he, hemp, ite_true] at h ⊢
        exact ih data h
      · simp [_encapsulate, he, hemp] at h

theorem decapsulate_encapsulate (registry : List Transform) (ts : List Transform)
    (data : Data)
    (hreg : ∀ t ∈ ts, getByName registry t.name = some t)
    (hinv : ∀ t ∈ ts, Inverts t) :
    _decapsulate registry (_encapsulate ts data).1 (_encapsulate ts data).2
      = .ok data := by
  induction ts generalizing data with
  | nil => rfl
  | cons t ts ih =>
    have hreg' : ∀ u ∈ ts, getByName registry u.name = some u :=
      fun u hu => hreg u (List.mem_cons_of_mem _ hu)
    have hinv' : ∀ u ∈ ts, Inverts u := fun u hu => hinv u (List.mem_cons_of_mem _ hu)
    rcases he : t.encapsulate data with ⟨od, materials⟩
    rcases od with _ | d'
    · rw [_encapsulate, he]
      exact ih data hreg' hinv'
    · by_cases hemp : d'.isEmpty
      · simp only [_encapsulate, he, hemp, ite_true]
        exact ih data hreg' hinv'
      · simp only [_encapsulate, he, hemp, ite_false, Bool.false_eq_true, if_false]
        have h1 := ih d' hreg' hinv'
        rw [_decapsulate] at h1 ⊢
        rw [List.reverse_cons, decapsulateLoop_append, h1]
        have hstep : decapsulateStep registry d' ⟨t.name, t.module, materials⟩
            = .ok (t.decapsulate d' materials) := by
          rw [decapsulateStep]
          simp [hreg t (List.mem_cons_self t ts)]
        simp only [Except.bind, decapsulateLoop, hstep]
        rw [hinv t (List.mem_cons_self t ts) data d' materials he
          (Bool.not_eq_true _ ▸ eq_false_of_ne_true hemp)]
        rfl


theorem except_ok_bind {ε α β : Type} (a : α) (f : α → Except ε β) :
    (Except.ok a : Except ε α) >>= f = f a := rfl

theorem except_error_bind {ε α β : Type} (e : ε) (f : α → Except ε β) :
    (Except.error e : Except ε α) >>= f = Except.error e := rfl

theorem except_pure_eq {ε α : Type} (a : α) : (pure a : Except ε α) = Except.ok a := rfl

theorem except_throw_eq {ε α : Type} (e : ε) : (throw e : Except ε α) = Except.error e := rfl

/-- C1 (amended): for every block with a *truthy* checksum and every byte
string, after a successful save a synchronous read returns the original
data, for any configured transform chain whose transforms' `decapsulate`
inverts their `encapsulate` (and any HMAC configuration).  For a block with
a null (or empty) checksum the `checksum` metadata key is omitted on save
and the read fails instead of returning the data. -/
theorem read_after_save_roundtrip (cfg : StorageConfig) (s : Store)
    (block : DereferencedBlock) (data : Data)
    (hck : strTruthy block.checksum = true)
    (hinv : ∀ t ∈ activeTransforms cfg, Inverts t) :
    ∃ m, _read cfg (_write cfg s block data).1 block false
      = .ok (block, some data, m) := by
  obtain ⟨c, hc⟩ : ∃ c, block.checksum = some c := by
    rcases hb : block.checksum with _ | c
    · rw [hb] at hck; simp [strTruthy] at hck
    · exact ⟨c, rfl⟩
  have hreg : ∀ t ∈ activeTransforms cfg, getByName cfg.registry t.name = some t :=
    fun t ht => activeTransforms_mem cfg t ht
  have hdecap := decapsulate_encapsulate cfg.registry (activeTransforms cfg) data hreg hinv
  have hnil := encapsulate_nil_transforms (activeTransforms cfg) data
  refine ⟨_build_metadata cfg.hmac block.size
    (_encapsulate (activeTransforms cfg) data).1.length
    (_encapsulate (activeTransforms cfg) data).2 block.checksum, ?_⟩
  have hw1 : (_write cfg s block data).1.data (_block_uid_to_key cfg block.uid)
      = some (_encapsulate (activeTransforms cfg) data).1 := by
    simp [_write, updateF_same]
  have hw2 : (_write cfg s block data).1.meta (_block_uid_to_key cfg block.uid)
      = some (_build_metadata cfg.hmac block.size
          (_encapsulate (activeTransforms cfg) data).1.length
          (_encapsulate (activeTransforms cfg) data).2 block.checksum) := by
    simp [_write, updateF_same]
  have hobj : (_build_metadata cfg.hmac block.size
      (_encapsulate (activeTransforms cfg) data).1.length
      (_encapsulate (activeTransforms cfg) data).2 block.checksum).object_size
      = (_encapsulate (activeTransforms cfg) data).1.length := by
    cases hh : cfg.hmac <;> simp [_build_metadata, add_hexdigest, hh]
  have hmeta_cs : (_build_metadata cfg.hmac block.size
      (_encapsulate (activeTransforms cfg) data).1.length
      (_encapsulate (activeTransforms cfg) data).2 block.checksum).checksum
      = some c := by
    rw [hc] at hck
    cases hh : cfg.hmac <;> simp [_build_metadata, add_hexdigest, hh, hc, hck]
  have hMt : (_build_metadata cfg.hmac block.size
      (_encapsulate (activeTransforms cfg) data).1.length
      (_encapsulate (activeTransforms cfg) data).2 block.checksum).transforms
      = if (_encapsulate (activeTransforms cfg) data).2.isEmpty then none
        else some (_encapsulate (activeTransforms cfg) data).2 := by
    cases hh : cfg.hmac <;> simp [_build_metadata, add_hexdigest, hh]
  have hdecode : _decode_metadata cfg.hmac
      (_build_metadata cfg.hmac block.size
        (_encapsulate (activeTransforms cfg) data).1.length
        (_encapsulate (activeTransforms cfg) data).2 block.checksum)
      (_encapsulate (activeTransforms cfg) data).1.length = .ok
        (_build_metadata cfg.hmac block.size
          (_encapsulate (activeTransforms cfg) data).1.length
          (_encapsulate (activeTransforms cfg) data).2 block.checksum) := by
    cases hh : cfg.hmac with
    | none =>
      rw [hh] at hobj
      simp [_decode_metadata, hobj, hh, except_pure_eq, except_ok_bind]
    | some f =>
      rw [hh] at hobj
      simp [_decode_metadata, verify_hexdigest, _build_metadata, add_hexdigest, hh,
        hobj, except_pure_eq, except_ok_bind]
  generalize hM : _build_metadata cfg.hmac block.size
    (_encapsulate (activeTransforms cfg) data).1.length
    (_encapsulate (activeTransforms cfg) data).2 block.checksum = M
    at hw2 hobj hmeta_cs hMt hdecode ⊢
  generalize hE1 : (_encapsulate (activeTransforms cfg) data).1 = stored
    at hw1 hobj hdecode hnil hdecap
  generalize hE2 : (_encapsulate (activeTransforms cfg) data).2 = tms
    at hMt hnil hdecap
  cases tms with
  | nil =>
    have hsd : stored = data := hnil rfl
    subst hsd
    rw [List.isEmpty_nil, if_pos rfl] at hMt
    simp [_read, _read_object_data, _read_object_meta, hw1, hw2, hdecode, hmeta_cs,
      hMt, except_ok_bind, except_pure_eq]
  | cons e rest =>
    rw [List.isEmpty_cons] at hMt
    simp only [Bool.false_eq_true, if_false] at hMt
    simp [_read, _read_object_data, _read_object_meta, hw1, hw2, hdecode, hmeta_cs,
      hMt, hdecap, except_ok_bind, except_pure_eq]

/-- A concrete invertible transform: prepend a marker byte. -/
def tPrepend : Transform :=
  ⟨"p".toList, "mod.p".toList, fun d => (some (7 :: d), []), fun d _ => d.drop 1⟩

/-- A storage configuration with one active transform and HMAC enabled. -/
def cfgRoundtrip : StorageConfig :=
  ⟨[tPrepend], ["p".toList], some fun _ => "h".toList, fun s => s⟩

/-- C1 witness: a 3-byte payload saved under a block with checksum `"abcd"`
through the prepend transform (HMAC enabled) reads back unchanged. -/
theorem read_after_save_roundtrip_witness :
    ∃ m, _read cfgRoundtrip
        (_write cfgRoundtrip emptyStore ⟨⟨1, 2⟩, 7, 3, some "abcd".toList⟩ [1, 2, 3]).1
        ⟨⟨1, 2⟩, 7, 3, some "abcd".toList⟩ false
      = .ok (⟨⟨1, 2⟩, 7, 3, some "abcd".toList⟩, some [1, 2, 3], m) := by
  apply read_after_save_roundtrip
  · decide
  · intro t ht
    have hat : activeTransforms cfgRoundtrip = [tPrepend] := rfl
    rw [hat, List.mem_singleton] at ht
    subst ht
    intro d d' materials he hne
    simp only [tPrepend, Prod.mk.injEq, Option.some.injEq] at he
    obtain ⟨h1, h2⟩ := he
    subst h1
    subst h2
    simp [tPrepend]

/-- C10 (amended): with the cache present and reading from it enabled, a read
whose metadata record is cached returns the cached record directly with none
of the checks a backend read performs — the result holds for *every*
configuration (HMAC enabled or not), every backend state and every cached
record, however inconsistent, so no HMAC verification, no
object-size/data-length validation, no checksum-presence check and no
decapsulation happens — and, unless `metadata_only`, a cached *non-empty*
payload is returned the same way.  (A cached empty payload is falsy in the
source's `if data:` and falls through to the checked backend read.) -/
theorem cached_read_hit (cfg : StorageConfig) (c : ReadCache) (s : Store)
    (block : DereferencedBlock) (m : Metadata)
    (hm : c.meta (_block_uid_to_key cfg block.uid) = some m) :
    (cachedRead cfg (some c) true s block true).1 = .ok (block, none, m) ∧
    (∀ d, c.data (_block_uid_to_key cfg block.uid) = some d → d.isEmpty = false →
      (cachedRead cfg (some c) true s block false).1 = .ok (block, some d, m)) := by
  constructor
  · simp [cachedRead, hm]
  · intro d hd hne
    simp [cachedRead, hm, hd, hne]

/-- A cache holding a deliberately inconsistent metadata record (size 999,
no checksum, no `hmac` field) and a non-empty payload for block `(1, 2)`. -/
def cacheInconsistent : ReadCache :=
  ⟨fun k => if k = _block_uid_to_key cfgRoundtrip ⟨1, 2⟩
      then some ⟨999, 0, none, none, none⟩ else none,
    fun k => if k = _block_uid_to_key cfgRoundtrip ⟨1, 2⟩ then some [5] else none⟩

/-- C10 witness: under the HMAC-enabled configuration and an *empty* backend,
a cached metadata record lacking an `hmac` field and a `checksum` field and
carrying an impossible size is returned as is, in both the metadata-only and
the full-read case — none of the backend-read checks run. -/
theorem cached_read_hit_witness :
    (cachedRead cfgRoundtrip (some cacheInconsistent) true emptyStore
        ⟨⟨1, 2⟩, 0, 4, none⟩ true).1
      = .ok (⟨⟨1, 2⟩, 0, 4, none⟩, none, ⟨999, 0, none, none, none⟩) ∧
    (cachedRead cfgRoundtrip (some cacheInconsistent) true emptyStore
        ⟨⟨1, 2⟩, 0, 4, none⟩ false).1
      = .ok (⟨⟨1, 2⟩, 0, 4, none⟩, some [5], ⟨999, 0, none, none, none⟩) := by
  have h := cached_read_hit cfgRoundtrip cacheInconsistent emptyStore
    ⟨⟨1, 2⟩, 0, 4, none⟩ ⟨999, 0, none, none, none⟩ (by decide)
  exact ⟨h.1, h.2 [5] (by decide) (by decide)⟩

/-- C10 counterexample: a cached *empty* payload is "present in the cache"
but falsy, so the full read does not return the cached values: it falls
through to the backend read — here against an empty backend, so it performs
the backend lookup (a check-bearing path) and fails not-found instead of
returning `(block, b"", metadata)`. -/
theorem cached_read_empty_data_counterexample :
    (⟨fun k => if k = _block_uid_to_key cfgPlain ⟨1, 2⟩
        then some ⟨9, 9, none, none, none⟩ else none,
      fun k => if k = _block_uid_to_key cfgPlain ⟨1, 2⟩ then some [] else none⟩
        : ReadCache).data (_block_uid_to_key cfgPlain ⟨1, 2⟩) = some [] ∧
    (cachedRead cfgPlain
        (some ⟨fun k => if k = _block_uid_to_key cfgPlain ⟨1, 2⟩
            then some ⟨9, 9, none, none, none⟩ else none,
          fun k => if k = _block_uid_to_key cfgPlain ⟨1, 2⟩ then some [] else none⟩)
        true emptyStore ⟨⟨1, 2⟩, 0, 0, none⟩ false).1
      = .error (.notFound (_block_uid_to_key cfgPlain ⟨1, 2⟩)) := by
  decide
